import Mathlib

/-!
Verification of the credential lifecycle and authenticated-dispatch core of
`slack-mcp` (`src/slack.py`), as a shallow embedding.

Modelling conventions:
* Python strings are Lean `String`; `str.startswith` is `strStartsWith`
  (character-list prefix test); Python's `a or b` on strings is `strOr`.
* The process environment is an `Env` record holding the four consulted
  variables (`os.getenv(name, "")`).
* The module-level mutable `_token_state` dict is a `TokenState` record;
  the `.env` sidecar file is `Option (List String)` (`none` = file absent,
  lines as split by `splitlines`).  These live in a `World` record that the
  stateful functions thread explicitly.
* The network is an oracle: dispatch round trips are scripted by index
  (`net : Nat → HttpOutcome`), the rotation endpoint by the refresh token
  sent (`rot : String → RotOutcome`).  `resp.json()` failure is `malformed`,
  an httpx error is `transportError`.
* A decoded dispatch response is `RespData`: `ok` is the truthiness of
  `data.get("ok")`, `error` is `data.get("error")`, `body` stands for the
  rest of the JSON object.  `json.dumps` is injective, so the serialized
  text of a `TextContent` is modelled by the `RespData` itself.
* Python exceptions (ValueError from `_get_token`, httpx / JSON-decode
  errors) are the `Except PyError` monad, threaded by hand.
-/

deriving instance DecidableEq for Except

namespace SlackMCP

/-- Python `str.startswith(p)`: `p`'s characters are a prefix of `s`'s. -/
def strStartsWith (s p : String) : Bool :=
  p.data.isPrefixOf s.data

/-- Python `a or b` for strings: `""` is falsy. -/
def strOr (a b : String) : String :=
  if a = "" then b else a

/-- The four environment variables consulted by the module (`os.getenv(_, "")`). -/
structure Env where
  slack_token : String
  slack_bot_token : String
  slack_user_token : String
  slack_refresh_token : String
deriving DecidableEq

/-- The module-level `_token_state` dict. -/
structure TokenState where
  access_token : String
  refresh_token : String
deriving DecidableEq

/-- Mutable state threaded through the stateful functions: the environment,
`_token_state`, and the `.env` file (`none` when `ENV_FILE.exists()` is false). -/
structure World where
  env : Env
  st : TokenState
  envFile : Option (List String)
deriving DecidableEq

/-- Model of `_get_token_type` (slack.py:76-89): prefix classification of a token. -/
def _get_token_type (token : String) : String :=
  if strStartsWith token "xoxb-" then "bot"
  else if strStartsWith token "xoxp-" then "user"
  else if strStartsWith token "xoxe.xoxp-" then "user_rotatable"
  else if strStartsWith token "xoxe.xoxb-" then "bot_rotatable"
  else if strStartsWith token "xapp-" then "app_level"
  else "unknown"

/-- Model of `_load_token_from_env` (slack.py:92-99): the new `_token_state` assigned
from the environment (the prior state is overwritten unconditionally). -/
def _load_token_from_env (env : Env) : TokenState :=
  { access_token := strOr env.slack_token (strOr env.slack_bot_token env.slack_user_token),
    refresh_token := env.slack_refresh_token }

/-- Initial seeding of `_token_state` (slack.py:64-67). -/
def initialTokenState (env : Env) : TokenState :=
  { access_token := strOr env.slack_token (strOr env.slack_bot_token env.slack_user_token),
    refresh_token := env.slack_refresh_token }

/-- The test `line.startswith(("SLACK_TOKEN=", "SLACK_BOT_TOKEN=",
"SLACK_USER_TOKEN="))` of `_save_tokens_to_env` (slack.py:115). -/
def isAccessLine (line : String) : Bool :=
  strStartsWith line "SLACK_TOKEN=" || strStartsWith line "SLACK_BOT_TOKEN=" ||
    strStartsWith line "SLACK_USER_TOKEN="

/-- The test `line.startswith("SLACK_REFRESH_TOKEN=")` (slack.py:120). -/
def isRefreshLine (line : String) : Bool :=
  strStartsWith line "SLACK_REFRESH_TOKEN="

/-- A line touched by the credential rewrite: either test above matches. -/
def isCredLine (line : String) : Bool :=
  isAccessLine line || isRefreshLine line

/-- One rewritten pass over the existing `.env` lines (the `for line in lines`
loop of `_save_tokens_to_env`, slack.py:114-124), with the `found_access` /
`found_refresh` flags threaded; returns the new lines and the final flags. -/
def rewriteEnvLines (access_token refresh_token : String) :
    List String → Bool → Bool → List String × Bool × Bool
  | [], found_access, found_refresh => ([], found_access, found_refresh)
  | line :: ls, found_access, found_refresh =>
    if isAccessLine line then
      if found_access then
        rewriteEnvLines access_token refresh_token ls found_access found_refresh
      else
        let r := rewriteEnvLines access_token refresh_token ls true found_refresh
        (("SLACK_TOKEN=" ++ access_token) :: r.1, r.2)
    else if isRefreshLine line then
      let r := rewriteEnvLines access_token refresh_token ls found_access true
      (("SLACK_REFRESH_TOKEN=" ++ refresh_token) :: r.1, r.2)
    else
      let r := rewriteEnvLines access_token refresh_token ls found_access found_refresh
      (line :: r.1, r.2)

/-- Model of `_save_tokens_to_env` (slack.py:102-131): update the in-memory state and,
when the `.env` file exists, rewrite it. -/
def _save_tokens_to_env (w : World) (access_token refresh_token : String) : World :=
  let st : TokenState := { access_token := access_token, refresh_token := refresh_token }
  match w.envFile with
  | none => { w with st := st }
  | some lines =>
    let r := rewriteEnvLines access_token refresh_token lines false false
    let found_access := r.2.1
    let found_refresh := r.2.2
    let newLines := r.1
    let newLines :=
      if found_access then newLines else newLines ++ ["SLACK_TOKEN=" ++ access_token]
    let newLines :=
      if !found_refresh && refresh_token != "" then
        newLines ++ ["SLACK_REFRESH_TOKEN=" ++ refresh_token]
      else newLines
    { w with st := st, envFile := some newLines }

/-- Python exceptions that can escape the token/dispatch core. -/
inductive PyError where
  /-- The `ValueError` raised by `_get_token` (slack.py:171). -/
  | credentialMissing
  /-- An `httpx` transport error escaping a network call. -/
  | transport
  /-- A JSON decode error escaping `resp.json()`. -/
  | jsonDecode
deriving DecidableEq

/-- Decoded JSON of the rotation endpoint's response, as accessed by
`_refresh_token`: truthiness of `data.get("ok")`, and the `.get(_, "")`
string fields. -/
structure RotData where
  ok : Bool
  token : String
  refresh_token : String
deriving DecidableEq

/-- Outcome of the one rotation round trip `_refresh_token` may issue. -/
inductive RotOutcome where
  | transportError
  | malformed
  | success (d : RotData)
deriving DecidableEq

/-- Model of `_refresh_token` (slack.py:134-161).  `rot` is the rotation endpoint,
keyed by the `refresh_token` form field sent.  Returns the new world, the
number of rotation round trips issued, and the Python result — `Except.ok`
for a normal `return`, `Except.error` for an escaping exception. -/
def _refresh_token (rot : String → RotOutcome) (w : World) :
    World × Nat × Except PyError Bool :=
  let refresh_token := w.st.refresh_token
  if refresh_token = "" then
    (w, 0, .ok false)
  else
    match rot refresh_token with
    | .transportError => (w, 1, .error .transport)
    | .malformed => (w, 1, .error .jsonDecode)
    | .success data =>
      if data.ok then
        let new_access := data.token
        let new_refresh := data.refresh_token
        if new_access != "" then
          (_save_tokens_to_env w new_access new_refresh, 1, .ok true)
        else
          (w, 1, .ok false)
      else
        (w, 1, .ok false)

/-- Model of `_get_token` (slack.py:164-174): read the access token, reloading from the
environment when empty; raises `credentialMissing` when still empty. -/
def _get_token (w : World) : World × Except PyError String :=
  let token := w.st.access_token
  let next :=
    if token = "" then
      let w' : World := { w with st := _load_token_from_env w.env }
      (w', w'.st.access_token)
    else (w, token)
  if next.2 = "" then (next.1, .error .credentialMissing)
  else (next.1, .ok next.2)

/-- Model of `_is_user_token` (slack.py:177-181). -/
def _is_user_token (w : World) : World × Except PyError Bool :=
  match _get_token w with
  | (w', .error e) => (w', .error e)
  | (w', .ok token) =>
    let token_type := _get_token_type token
    (w', .ok (token_type == "user" || token_type == "user_rotatable"))

/-- Constant `SLACK_API_BASE` (slack.py:60). -/
def SLACK_API_BASE : String := "https://slack.com/api"

/-- HTTP verb used by an attempt. -/
inductive Verb where
  | post
  | get
deriving DecidableEq

/-- A parameter mapping (`dict[str, Any]`); the dispatch core never inspects
it, values are modelled as strings. -/
abbrev Params := List (String × String)

/-- The empty dict `{}`. -/
def emptyParams : Params := []

/-- The outbound HTTP request an attempt issues: verb, URL, headers, and the
parameters in their placement (JSON body for POST, query string for GET). -/
structure Request where
  verb : Verb
  url : String
  headers : List (String × String)
  jsonBody : Option Params
  query : Option Params
deriving DecidableEq

/-- Decoded JSON of a dispatch response, as accessed by `_post` / `_get`:
truthiness of `data.get("ok")`, `data.get("error")`, and `body` standing for
the remaining fields of the object. -/
structure RespData where
  ok : Bool
  error : Option String
  body : String
deriving DecidableEq

/-- Outcome of one dispatch round trip. -/
inductive HttpOutcome where
  | transportError
  | malformed
  | success (d : RespData)
deriving DecidableEq

/-- Model of `TextContent(type="text", text=json.dumps(data, indent=2))`; `json.dumps`
is injective so the serialized text is modelled by the decoded data itself. -/
structure TextContent where
  type : String
  text : RespData
deriving DecidableEq

/-- Result of one logical dispatcher call: final world, next unused dispatch
round-trip index, number of rotation round trips issued, the requests issued
in order, and the Python result. -/
structure DispatchResult where
  w : World
  nextIdx : Nat
  rotCalls : Nat
  trace : List Request
  result : Except PyError (List TextContent)

/-- Model of `_post` (slack.py:184-205).  `net n` scripts the outcome of the `n`-th
dispatch round trip of the logical call; `n` is the index of the next one. -/
def _post (net : Nat → HttpOutcome) (rot : String → RotOutcome) (endpoint : String)
    (params : Option Params) (w : World) (n : Nat) (retry_on_auth_fail : Bool) :
    DispatchResult :=
  match _get_token w with
  | (w', .error e) => ⟨w', n, 0, [], .error e⟩
  | (w', .ok token) =>
    let headers := [("Authorization", "Bearer " ++ token),
                    ("Content-Type", "application/json; charset=utf-8")]
    let req : Request :=
      ⟨.post, SLACK_API_BASE ++ "/" ++ endpoint, headers, some (params.getD emptyParams), none⟩
    match net n with
    | .transportError => ⟨w', n + 1, 0, [req], .error .transport⟩
    | .malformed => ⟨w', n + 1, 0, [req], .error .jsonDecode⟩
    | .success data =>
      if h : (!data.ok && (data.error == some "token_expired") && retry_on_auth_fail) = true then
        match _refresh_token rot w' with
        | (w2, rc, .error e) => ⟨w2, n + 1, rc, [req], .error e⟩
        | (w2, rc, .ok true) =>
          let r := _post net rot endpoint params w2 (n + 1) false
          ⟨r.w, r.nextIdx, rc + r.rotCalls, req :: r.trace, r.result⟩
        | (w2, rc, .ok false) =>
          ⟨w2, n + 1, rc, [req], .ok [⟨"text", data⟩]⟩
      else
        ⟨w', n + 1, 0, [req], .ok [⟨"text", data⟩]⟩
termination_by cond retry_on_auth_fail 1 0
decreasing_by
  simp only [Bool.and_eq_true] at h
  simp [h.2]

/-- Model of `_get` (slack.py:208-228). -/
def _get (net : Nat → HttpOutcome) (rot : String → RotOutcome) (endpoint : String)
    (params : Option Params) (w : World) (n : Nat) (retry_on_auth_fail : Bool) :
    DispatchResult :=
  match _get_token w with
  | (w', .error e) => ⟨w', n, 0, [], .error e⟩
  | (w', .ok token) =>
    let headers := [("Authorization", "Bearer " ++ token)]
    let req : Request :=
      ⟨.get, SLACK_API_BASE ++ "/" ++ endpoint, headers, none, some (params.getD emptyParams)⟩
    match net n with
    | .transportError => ⟨w', n + 1, 0, [req], .error .transport⟩
    | .malformed => ⟨w', n + 1, 0, [req], .error .jsonDecode⟩
    | .success data =>
      if h : (!data.ok && (data.error == some "token_expired") && retry_on_auth_fail) = true then
        match _refresh_token rot w' with
        | (w2, rc, .error e) => ⟨w2, n + 1, rc, [req], .error e⟩
        | (w2, rc, .ok true) =>
          let r := _get net rot endpoint params w2 (n + 1) false
          ⟨r.w, r.nextIdx, rc + r.rotCalls, req :: r.trace, r.result⟩
        | (w2, rc, .ok false) =>
          ⟨w2, n + 1, rc, [req], .ok [⟨"text", data⟩]⟩
      else
        ⟨w', n + 1, 0, [req], .ok [⟨"text", data⟩]⟩
termination_by cond retry_on_auth_fail 1 0
decreasing_by
  simp only [Bool.and_eq_true] at h
  simp [h.2]

/-- Verb-independent control content of a request: its URL, its
`Authorization` header entries, and its parameter payload wherever it is
placed (JSON body or query string). -/
def reqCtrl (q : Request) : String × List (String × String) × Params :=
  (q.url, q.headers.filter (fun kv => kv.1 == "Authorization"),
    q.jsonBody.getD emptyParams ++ q.query.getD emptyParams)

/-! Toolkit lemmas about the character-list prefix test. -/

lemma isPrefixOf_iff_exists_append {p l : List Char} :
    p.isPrefixOf l = true ↔ ∃ r, l = p ++ r := by
  induction p generalizing l with
  | nil =>
    simp [List.isPrefixOf]
  | cons a as ih =>
    cases l with
    | nil => simp [List.isPrefixOf]
    | cons b bs =>
      simp only [List.isPrefixOf, Bool.and_eq_true, beq_iff_eq, ih]
      constructor
      · rintro ⟨rfl, r, rfl⟩
        exact ⟨r, rfl⟩
      · rintro ⟨r, hr⟩
        rw [List.cons_append] at hr
        injection hr with h1 h2
        exact ⟨h1.symm, r, h2⟩

lemma isPrefixOf_append_of_length_le {p l₁ : List Char} (l₂ : List Char)
    (h : p.length ≤ l₁.length) :
    p.isPrefixOf (l₁ ++ l₂) = p.isPrefixOf l₁ := by
  induction p generalizing l₁ with
  | nil => simp [List.isPrefixOf]
  | cons a as ih =>
    cases l₁ with
    | nil => simp at h
    | cons b bs =>
      simp only [List.cons_append, List.isPrefixOf, List.append_eq]
      rw [ih (Nat.le_of_succ_le_succ h)]

lemma isPrefixOf_self_append {p r : List Char} : p.isPrefixOf (p ++ r) = true := by
  induction p with
  | nil => simp [List.isPrefixOf]
  | cons a as ih => simp [List.isPrefixOf, ih]

/-- A token starting with `p` cannot also start with a pattern `q` that is at
most as long as `p` yet not an initial segment of it. -/
lemma strStartsWith_false_of_strStartsWith {t : String} (p q : String)
    (hlen : q.data.length ≤ p.data.length)
    (hq : q.data.isPrefixOf p.data = false)
    (ht : strStartsWith t p = true) : strStartsWith t q = false := by
  unfold strStartsWith at ht ⊢
  obtain ⟨r, hr⟩ := isPrefixOf_iff_exists_append.mp ht
  rw [hr, isPrefixOf_append_of_length_le r hlen, hq]

/-- A string literally built as `p ++ rest` starts with `p`. -/
lemma strStartsWith_append_self (p rest : String) :
    strStartsWith (p ++ rest) p = true := by
  unfold strStartsWith
  rw [String.data_append]
  exact isPrefixOf_self_append

/-- Appending cannot change a short-pattern match: `p ++ rest` starts with `q` exactly when `p` does, provided `q` is no
longer than `p`. -/
lemma strStartsWith_append_of_length_le (p rest q : String)
    (hlen : q.data.length ≤ p.data.length) :
    strStartsWith (p ++ rest) q = strStartsWith p q := by
  unfold strStartsWith
  rw [String.data_append]
  exact isPrefixOf_append_of_length_le rest.data hlen

/-- Mutual exclusion in the other direction: if `t` starts with the shorter
pattern `q`, and `q` is not an initial segment of `p`, then `t` does not
start with `p`. -/
lemma strStartsWith_disjoint {t : String} (p q : String)
    (hlen : q.data.length ≤ p.data.length)
    (hq : q.data.isPrefixOf p.data = false)
    (ht : strStartsWith t q = true) : strStartsWith t p = false := by
  cases hx : strStartsWith t p with
  | false => rfl
  | true =>
    have hcontra := strStartsWith_false_of_strStartsWith p q hlen hq hx
    rw [ht] at hcontra
    exact absurd hcontra (by simp)

/-- A pattern `q` longer than `p` cannot match `p ++ r` unless `p` is an
initial segment of `q`. -/
lemma isPrefixOf_long_append_false {p q : List Char} (r : List Char)
    (hlen : p.length ≤ q.length) (h : p.isPrefixOf q = false) :
    q.isPrefixOf (p ++ r) = false := by
  induction p generalizing q with
  | nil => simp [List.isPrefixOf] at h
  | cons a as ih =>
    cases q with
    | nil => simp at hlen
    | cons b bs =>
      simp only [List.isPrefixOf, Bool.and_eq_false_iff] at h
      simp only [List.cons_append, List.isPrefixOf, Bool.and_eq_false_iff]
      rcases h with hab | has
      · left
        cases hba : b == a with
        | false => rfl
        | true =>
          rw [show a = b from (eq_of_beq hba).symm] at hab
          simp at hab
      · cases hba : b == a with
        | false => exact Or.inl rfl
        | true =>
          right
          exact ih (Nat.le_of_succ_le_succ hlen) has

/-- String-level version of `isPrefixOf_long_append_false`. -/
lemma strStartsWith_append_long_false (p rest q : String)
    (hlen : p.data.length ≤ q.data.length)
    (h : p.data.isPrefixOf q.data = false) :
    strStartsWith (p ++ rest) q = false := by
  unfold strStartsWith
  rw [String.data_append]
  exact isPrefixOf_long_append_false rest.data hlen h

/-- The canonical rewritten access line is recognized as an access line. -/
lemma isAccessLine_canonical (a : String) :
    isAccessLine ("SLACK_TOKEN=" ++ a) = true := by
  simp [isAccessLine, strStartsWith_append_self]

/-- The canonical rewritten refresh line is recognized as a refresh line. -/
lemma isRefreshLine_canonical (r : String) :
    isRefreshLine ("SLACK_REFRESH_TOKEN=" ++ r) = true := by
  simp [isRefreshLine, strStartsWith_append_self]

/-- The canonical refresh line never passes the access-line test. -/
lemma isAccessLine_refresh_canonical (r : String) :
    isAccessLine ("SLACK_REFRESH_TOKEN=" ++ r) = false := by
  unfold isAccessLine
  rw [strStartsWith_append_of_length_le _ _ _ (by decide),
    strStartsWith_append_of_length_le _ _ _ (by decide),
    strStartsWith_append_of_length_le _ _ _ (by decide)]
  decide

/-- The canonical access line never passes the refresh-line test. -/
lemma isRefreshLine_access_canonical (a : String) :
    isRefreshLine ("SLACK_TOKEN=" ++ a) = false := by
  unfold isRefreshLine
  exact strStartsWith_append_long_false _ _ _ (by decide) (by decide)

/-- An access line is never simultaneously a refresh line: each access
pattern disagrees with `SLACK_REFRESH_TOKEN=` within its own length. -/
lemma isRefreshLine_false_of_isAccessLine {l : String} (h : isAccessLine l = true) :
    isRefreshLine l = false := by
  unfold isAccessLine at h
  unfold isRefreshLine
  simp only [Bool.or_eq_true] at h
  rcases h with (h | h) | h
  · exact strStartsWith_disjoint "SLACK_REFRESH_TOKEN=" "SLACK_TOKEN="
      (by decide) (by decide) h
  · exact strStartsWith_disjoint "SLACK_REFRESH_TOKEN=" "SLACK_BOT_TOKEN="
      (by decide) (by decide) h
  · exact strStartsWith_disjoint "SLACK_REFRESH_TOKEN=" "SLACK_USER_TOKEN="
      (by decide) (by decide) h

end SlackMCP

namespace SlackMCP

-- Sanity examples (concrete evaluation of the pure helpers).
example : strStartsWith "xoxe.xoxp-abc" "xoxe.xoxp-" = true := by decide
example : strStartsWith "xoxe.xoxp-abc" "xoxp-" = false := by decide
example : _get_token_type "xoxe.xoxp-abc" = "user_rotatable" := by decide
example : _get_token_type "xoxb-1" = "bot" := by decide
example : _get_token_type "zzz" = "unknown" := by decide

/-- C7: every credential starting with the rotatable-user pattern is
classified `user_rotatable` and never `user`; more generally each of the five
known patterns maps to its kind (startswith all five checked patterns being
mutually exclusive) and everything else maps to `unknown`. -/
theorem c7_classify_by_kind (t : String) :
    (strStartsWith t "xoxb-" = true → _get_token_type t = "bot") ∧
    (strStartsWith t "xoxp-" = true → _get_token_type t = "user") ∧
    (strStartsWith t "xoxe.xoxp-" = true →
      _get_token_type t = "user_rotatable" ∧ _get_token_type t ≠ "user") ∧
    (strStartsWith t "xoxe.xoxb-" = true → _get_token_type t = "bot_rotatable") ∧
    (strStartsWith t "xapp-" = true → _get_token_type t = "app_level") ∧
    (strStartsWith t "xoxb-" = false → strStartsWith t "xoxp-" = false →
      strStartsWith t "xoxe.xoxp-" = false → strStartsWith t "xoxe.xoxb-" = false →
      strStartsWith t "xapp-" = false → _get_token_type t = "unknown") := by
  refine ⟨?_, ?_, ?_, ?_, ?_, ?_⟩
  · intro h
    simp [_get_token_type, h]
  · intro h
    have hb := strStartsWith_false_of_strStartsWith "xoxp-" "xoxb-"
      (by decide) (by decide) h
    simp [_get_token_type, h, hb]
  · intro h
    have hb := strStartsWith_false_of_strStartsWith "xoxe.xoxp-" "xoxb-"
      (by decide) (by decide) h
    have hp := strStartsWith_false_of_strStartsWith "xoxe.xoxp-" "xoxp-"
      (by decide) (by decide) h
    simp [_get_token_type, h, hb, hp]
  · intro h
    have hb := strStartsWith_false_of_strStartsWith "xoxe.xoxb-" "xoxb-"
      (by decide) (by decide) h
    have hp := strStartsWith_false_of_strStartsWith "xoxe.xoxb-" "xoxp-"
      (by decide) (by decide) h
    have hep := strStartsWith_false_of_strStartsWith "xoxe.xoxb-" "xoxe.xoxp-"
      (by decide) (by decide) h
    simp [_get_token_type, h, hb, hp, hep]
  · intro h
    have hb := strStartsWith_false_of_strStartsWith "xapp-" "xoxb-"
      (by decide) (by decide) h
    have hp := strStartsWith_false_of_strStartsWith "xapp-" "xoxp-"
      (by decide) (by decide) h
    have hep := strStartsWith_disjoint "xoxe.xoxp-" "xapp-"
      (by decide) (by decide) h
    have heb := strStartsWith_disjoint "xoxe.xoxb-" "xapp-"
      (by decide) (by decide) h
    simp [_get_token_type, h, hb, hp, hep, heb]
  · intro h1 h2 h3 h4 h5
    simp [_get_token_type, h1, h2, h3, h4, h5]

/-- Witness for C7 at a concrete rotatable-user credential and a concrete
unknown-shaped credential. -/
theorem c7_classify_by_kind_witness :
    strStartsWith "xoxe.xoxp-abc" "xoxe.xoxp-" = true ∧
    _get_token_type "xoxe.xoxp-abc" = "user_rotatable" ∧
    _get_token_type "xoxe.xoxp-abc" ≠ "user" ∧
    _get_token_type "hunter2" = "unknown" :=
  ⟨by decide,
   ((c7_classify_by_kind "xoxe.xoxp-abc").2.2.1 (by decide)).1,
   ((c7_classify_by_kind "xoxe.xoxp-abc").2.2.1 (by decide)).2,
   (c7_classify_by_kind "hunter2").2.2.2.2.2 (by decide) (by decide) (by decide)
     (by decide) (by decide)⟩

/-- C4 counterexample: `_load_token_from_env` overwrites the state from the
environment unconditionally; starting from the prior state
`⟨"xoxp-old", "old-refresh"⟩` with all four sources empty, the reload leaves
the empty state, not the last-known values the claim promises. -/
theorem c4_reload_clears_counterexample :
    _load_token_from_env ⟨"", "", "", ""⟩ = (⟨"", ""⟩ : TokenState) ∧
    _load_token_from_env ⟨"", "", "", ""⟩ ≠ (⟨"xoxp-old", "old-refresh"⟩ : TokenState) := by
  decide

/-- C4 amended: `reload_from_sources` assigns the first non-empty source in
the fixed order `SLACK_TOKEN`, `SLACK_BOT_TOKEN`, `SLACK_USER_TOKEN`, and the
refresh source unconditionally; when all access sources are empty it clears
the access credential to empty (the prior state is always overwritten, never
kept). -/
theorem c4_amended_reload_overwrites (env : Env) :
    ((env.slack_token = "" ∧ env.slack_bot_token = "" ∧ env.slack_user_token = "") →
      (_load_token_from_env env).access_token = "") ∧
    (env.slack_token ≠ "" →
      (_load_token_from_env env).access_token = env.slack_token) ∧
    (env.slack_token = "" → env.slack_bot_token ≠ "" →
      (_load_token_from_env env).access_token = env.slack_bot_token) ∧
    (env.slack_token = "" → env.slack_bot_token = "" →
      (_load_token_from_env env).access_token = env.slack_user_token) ∧
    (_load_token_from_env env).refresh_token = env.slack_refresh_token := by
  refine ⟨?_, ?_, ?_, ?_, rfl⟩
  · rintro ⟨h1, h2, h3⟩
    simp [_load_token_from_env, strOr, h1, h2, h3]
  · intro h
    simp [_load_token_from_env, strOr, h]
  · intro h1 h2
    simp [_load_token_from_env, strOr, h1, h2]
  · intro h1 h2
    simp [_load_token_from_env, strOr, h1, h2]

/-- Witness for C4 (amended) at two concrete environments: all sources empty
clears the access credential; with the first two sources set, the first one
wins. -/
theorem c4_amended_reload_overwrites_witness :
    (_load_token_from_env ⟨"", "", "", "xoxe-1-r"⟩).access_token = "" ∧
    (_load_token_from_env ⟨"xoxp-a", "xoxb-b", "", ""⟩).access_token = "xoxp-a" :=
  ⟨(c4_amended_reload_overwrites ⟨"", "", "", "xoxe-1-r"⟩).1 ⟨rfl, rfl, rfl⟩,
   (c4_amended_reload_overwrites ⟨"xoxp-a", "xoxb-b", "", ""⟩).2.1 (by decide)⟩

/-- C5: `_get_token` raises exactly when the in-memory access token is empty
and the reload leaves it empty; when the in-memory token is non-empty it is
returned as-is, and when the reload finds a non-empty first source that value
is returned. -/
theorem c5_get_token_missing_iff (w : World) :
    ((_get_token w).2 = Except.error PyError.credentialMissing ↔
      (w.st.access_token = "" ∧ (_load_token_from_env w.env).access_token = "")) ∧
    (w.st.access_token ≠ "" → (_get_token w).2 = Except.ok w.st.access_token) ∧
    (w.st.access_token = "" → (_load_token_from_env w.env).access_token ≠ "" →
      (_get_token w).2 = Except.ok (_load_token_from_env w.env).access_token) := by
  by_cases h : w.st.access_token = ""
  · by_cases h2 : (_load_token_from_env w.env).access_token = ""
    · simp [_get_token, h, h2]
    · simp [_get_token, h, h2]
  · simp [_get_token, h]

/-- Witness for C5: with everything empty `_get_token` raises; with a seeded
bot token it returns it. -/
theorem c5_get_token_missing_iff_witness :
    (_get_token ⟨⟨"", "", "", ""⟩, ⟨"", ""⟩, none⟩).2 =
      Except.error PyError.credentialMissing ∧
    (_get_token ⟨⟨"", "", "", ""⟩, ⟨"xoxb-t", ""⟩, none⟩).2 = Except.ok "xoxb-t" :=
  ⟨(c5_get_token_missing_iff ⟨⟨"", "", "", ""⟩, ⟨"", ""⟩, none⟩).1.mpr ⟨rfl, rfl⟩,
   (c5_get_token_missing_iff ⟨⟨"", "", "", ""⟩, ⟨"xoxb-t", ""⟩, none⟩).2.1 (by decide)⟩

/-- C8 counterexample: with an empty credential and all sources empty,
`_is_user_token` propagates the missing-credential error from `_get_token`
instead of returning `false`. -/
theorem c8_is_user_token_raises_counterexample :
    (_is_user_token ⟨⟨"", "", "", ""⟩, ⟨"", ""⟩, none⟩).2 =
      Except.error PyError.credentialMissing ∧
    (_is_user_token ⟨⟨"", "", "", ""⟩, ⟨"", ""⟩, none⟩).2 ≠ Except.ok false := by
  decide

/-- C8 amended: whenever `_get_token` succeeds, `_is_user_token` returns
whether the classification of that token is `user` or `user_rotatable`;
when `_get_token` raises missing-credential (empty credential, empty
sources), `_is_user_token` propagates that error rather than returning
`false`. -/
theorem c8_amended_is_user_token (w : World) :
    (∀ t, (_get_token w).2 = Except.ok t →
      (_is_user_token w).2 = Except.ok
        (_get_token_type t == "user" || _get_token_type t == "user_rotatable")) ∧
    ((_get_token w).2 = Except.error PyError.credentialMissing →
      (_is_user_token w).2 = Except.error PyError.credentialMissing) := by
  rcases hg : _get_token w with ⟨w1, r⟩
  cases r with
  | error e =>
    constructor
    · intro t ht
      simp at ht
    · intro he
      simp only [Except.error.injEq] at he
      simp [_is_user_token, hg, he]
  | ok t' =>
    constructor
    · intro t ht
      simp at ht
      subst ht
      simp [_is_user_token, hg]
    · intro he
      simp at he

/-- Witness for C8 (amended) at a concrete plain-user credential. -/
theorem c8_amended_is_user_token_witness :
    (_get_token ⟨⟨"", "", "", ""⟩, ⟨"xoxp-u", ""⟩, none⟩).2 = Except.ok "xoxp-u" ∧
    (_is_user_token ⟨⟨"", "", "", ""⟩, ⟨"xoxp-u", ""⟩, none⟩).2 = Except.ok
      (_get_token_type "xoxp-u" == "user" || _get_token_type "xoxp-u" == "user_rotatable") :=
  ⟨rfl, (c8_amended_is_user_token ⟨⟨"", "", "", ""⟩, ⟨"xoxp-u", ""⟩, none⟩).1 "xoxp-u" rfl⟩

/-- Used for C9: `_save_tokens_to_env` always installs exactly the pair it was
given as the in-memory state (slack.py:104-105). -/
lemma save_tokens_st (w : World) (a r : String) :
    (_save_tokens_to_env w a r).st = ⟨a, r⟩ := by
  unfold _save_tokens_to_env
  cases w.envFile <;> rfl

/-- C9 counterexample: seeding `_token_state` from an environment that holds
only `SLACK_REFRESH_TOKEN` produces the forbidden state with an empty access
credential and a non-empty refresh credential. -/
theorem c9_seed_breaks_invariant_counterexample :
    (initialTokenState ⟨"", "", "", "xoxe-1-refresh"⟩).access_token = "" ∧
    (initialTokenState ⟨"", "", "", "xoxe-1-refresh"⟩).refresh_token ≠ "" := by
  decide

/-- C9 amended: the pair invariant does hold of every state installed by a
successful rotation — `_refresh_token` only persists when the new access
token is non-empty — but initial seeding (and reload) from an environment
carrying only a refresh credential does produce an empty access credential
next to a non-empty refresh credential. -/
theorem c9_amended_rotation_installs_access (rot : String → RotOutcome) (w w' : World)
    (c : Nat) (h : _refresh_token rot w = (w', c, Except.ok true)) :
    w'.st.access_token ≠ "" := by
  unfold _refresh_token at h
  by_cases h0 : w.st.refresh_token = ""
  · simp [h0] at h
  · rw [if_neg h0] at h
    cases hr : rot w.st.refresh_token with
    | transportError => rw [hr] at h; simp at h
    | malformed => rw [hr] at h; simp at h
    | success d =>
      rw [hr] at h
      cases hok : d.ok with
      | false => simp [hok] at h
      | true =>
        cases hk : d.token != "" with
        | false => simp [hok, hk] at h
        | true =>
          simp only [hok, hk, if_true] at h
          have hw := congrArg (fun p => p.1) h
          simp only at hw
          rw [← hw, save_tokens_st]
          simpa using hk

/-- Witness for C9 (amended): a concrete successful rotation installs the
non-empty rotated access token. -/
theorem c9_amended_rotation_installs_access_witness :
    ((⟨⟨"", "", "", ""⟩, ⟨"xoxe.xoxp-new", "r2"⟩, none⟩ : World)).st.access_token ≠ "" :=
  c9_amended_rotation_installs_access
    (fun _ => RotOutcome.success ⟨true, "xoxe.xoxp-new", "r2"⟩)
    ⟨⟨"", "", "", ""⟩, ⟨"xoxe.xoxp-old", "r1"⟩, none⟩
    ⟨⟨"", "", "", ""⟩, ⟨"xoxe.xoxp-new", "r2"⟩, none⟩ 1 rfl

/-- C3 counterexample: `_refresh_token` has no exception handler; on a
transport failure of the rotation round trip, the error propagates instead
of the claimed `false` return. -/
theorem c3_refresh_transport_raises_counterexample :
    (_refresh_token (fun _ => RotOutcome.transportError)
        ⟨⟨"", "", "", ""⟩, ⟨"xoxe.xoxp-old", "xoxe-1-r"⟩, none⟩).2.2 =
      Except.error PyError.transport ∧
    (_refresh_token (fun _ => RotOutcome.transportError)
        ⟨⟨"", "", "", ""⟩, ⟨"xoxe.xoxp-old", "xoxe-1-r"⟩, none⟩).2.2 ≠
      Except.ok false := by
  decide

/-- C3 amended: with a refresh credential present, a rotation response with
success-flag false or with an empty new access token makes `_refresh_token`
return `false` with the world (in-memory state and file) unchanged; a
transport failure or malformed (non-JSON) response leaves the world unchanged
too, but propagates the exception rather than returning `false`. -/
theorem c3_amended_refresh_failure (rot : String → RotOutcome) (w : World)
    (h : w.st.refresh_token ≠ "") :
    (rot w.st.refresh_token = RotOutcome.transportError →
      _refresh_token rot w = (w, 1, Except.error PyError.transport)) ∧
    (rot w.st.refresh_token = RotOutcome.malformed →
      _refresh_token rot w = (w, 1, Except.error PyError.jsonDecode)) ∧
    (∀ d, rot w.st.refresh_token = RotOutcome.success d →
      (d.ok = false ∨ d.token = "") →
      _refresh_token rot w = (w, 1, Except.ok false)) := by
  refine ⟨?_, ?_, ?_⟩
  · intro hr
    unfold _refresh_token
    rw [if_neg h, hr]
  · intro hr
    unfold _refresh_token
    rw [if_neg h, hr]
  · intro d hr hfail
    unfold _refresh_token
    rw [if_neg h, hr]
    rcases hfail with hok | htok
    · simp [hok]
    · simp [htok]

/-- Witness for C3 (amended): a concrete rejected rotation (success-flag
false) returns `false` and leaves the world unchanged. -/
theorem c3_amended_refresh_failure_witness :
    _refresh_token (fun _ => RotOutcome.success ⟨false, "", ""⟩)
        ⟨⟨"", "", "", ""⟩, ⟨"xoxe.xoxp-old", "xoxe-1-r"⟩, none⟩ =
      (⟨⟨"", "", "", ""⟩, ⟨"xoxe.xoxp-old", "xoxe-1-r"⟩, none⟩, 1, Except.ok false) :=
  (c3_amended_refresh_failure (fun _ => RotOutcome.success ⟨false, "", ""⟩)
      ⟨⟨"", "", "", ""⟩, ⟨"xoxe.xoxp-old", "xoxe-1-r"⟩, none⟩ (by decide)).2.2
    ⟨false, "", ""⟩ rfl (Or.inl rfl)

/-- Behaviour of the rewrite loop of `_save_tokens_to_env`, for any starting
flags: non-credential lines pass through unchanged in order; the access-line
filter of the output is the single canonical line when the flag allows a
rewrite and an access line occurs, else empty; the output flags record
whether an access (resp. refresh) line occurred. -/
lemma rewriteEnvLines_spec (a r : String) (ls : List String) :
    ∀ fa fr : Bool,
    (rewriteEnvLines a r ls fa fr).1.filter (fun l => !isCredLine l) =
      ls.filter (fun l => !isCredLine l) ∧
    (rewriteEnvLines a r ls fa fr).1.filter isAccessLine =
      (if fa then [] else
        if ls.any isAccessLine then ["SLACK_TOKEN=" ++ a] else []) ∧
    (rewriteEnvLines a r ls fa fr).2.1 = (fa || ls.any isAccessLine) ∧
    (rewriteEnvLines a r ls fa fr).2.2 = (fr || ls.any isRefreshLine) := by
  induction ls with
  | nil =>
    intro fa fr
    simp [rewriteEnvLines]
  | cons line rest ih =>
    intro fa fr
    by_cases hA : isAccessLine line = true
    · have hR := isRefreshLine_false_of_isAccessLine hA
      have hC : isCredLine line = true := by simp [isCredLine, hA]
      cases fa with
      | true =>
        obtain ⟨ih1, ih2, ih3, ih4⟩ := ih true fr
        simp only [rewriteEnvLines, hA, if_true, ite_true]
        refine ⟨?_, ?_, ?_, ?_⟩
        · rw [ih1, List.filter_cons]
          simp [hC]
        · rw [ih2]
          simp
        · rw [ih3]
          simp [hA]
        · rw [ih4]
          simp [hR]
      | false =>
        obtain ⟨ih1, ih2, ih3, ih4⟩ := ih true fr
        simp only [rewriteEnvLines, hA, if_true, ite_true, Bool.false_eq_true, if_false]
        refine ⟨?_, ?_, ?_, ?_⟩
        · rw [List.filter_cons]
          have : isCredLine ("SLACK_TOKEN=" ++ a) = true := by
            simp [isCredLine, isAccessLine_canonical]
          simp only [this, Bool.not_true, Bool.false_eq_true, if_false]
          rw [ih1, List.filter_cons]
          simp [hC]
        · rw [List.filter_cons]
          simp only [isAccessLine_canonical, if_true, ite_true]
          rw [ih2]
          simp [hA]
        · rw [ih3]
          simp [hA]
        · rw [ih4]
          simp [hR]
    · have hA' : isAccessLine line = false := by simpa using hA
      by_cases hRf : isRefreshLine line = true
      · have hC : isCredLine line = true := by simp [isCredLine, hRf]
        obtain ⟨ih1, ih2, ih3, ih4⟩ := ih fa true
        simp only [rewriteEnvLines, hA', Bool.false_eq_true, if_false, hRf, if_true, ite_true]
        refine ⟨?_, ?_, ?_, ?_⟩
        · rw [List.filter_cons]
          have : isCredLine ("SLACK_REFRESH_TOKEN=" ++ r) = true := by
            simp [isCredLine, isRefreshLine_canonical]
          simp only [this, Bool.not_true, Bool.false_eq_true, if_false]
          rw [ih1, List.filter_cons]
          simp [hC]
        · rw [List.filter_cons]
          simp only [isAccessLine_refresh_canonical, Bool.false_eq_true, if_false]
          rw [ih2]
          simp [hA']
        · rw [ih3]
          simp [hA']
        · rw [ih4]
          simp [hRf]
      · have hRf' : isRefreshLine line = false := by simpa using hRf
        have hC : isCredLine line = false := by simp [isCredLine, hA', hRf']
        obtain ⟨ih1, ih2, ih3, ih4⟩ := ih fa fr
        simp only [rewriteEnvLines, hA', hRf', Bool.false_eq_true, if_false]
        refine ⟨?_, ?_, ?_, ?_⟩
        · rw [List.filter_cons]
          simp only [hC, Bool.not_false, if_true, ite_true]
          rw [ih1, List.filter_cons]
          simp [hC]
        · rw [List.filter_cons]
          simp only [hA', Bool.false_eq_true, if_false]
          rw [ih2]
          simp [hA']
        · rw [ih3]
          simp [hA']
        · rw [ih4]
          simp [hRf']

/-- C2: for every pre-existing `.env` content and new pair, the rewrite
preserves every non-credential line unchanged and in order, and leaves
exactly one access-credential line, the canonical `SLACK_TOKEN=<new value>`
(duplicate aliases collapsed, the canonical key appended when absent). -/
theorem c2_persist_rewrites_file (env : Env) (st : TokenState) (lines : List String)
    (a r : String) :
    ∃ out, (_save_tokens_to_env ⟨env, st, some lines⟩ a r).envFile = some out ∧
      out.filter (fun l => !isCredLine l) = lines.filter (fun l => !isCredLine l) ∧
      out.filter isAccessLine = ["SLACK_TOKEN=" ++ a] := by
  obtain ⟨h1, h2, h3, h4⟩ := rewriteEnvLines_spec a r lines false false
  have hcredA : isCredLine ("SLACK_TOKEN=" ++ a) = true := by
    simp [isCredLine, isAccessLine_canonical]
  have hcredR : isCredLine ("SLACK_REFRESH_TOKEN=" ++ r) = true := by
    simp [isCredLine, isRefreshLine_canonical]
  unfold _save_tokens_to_env
  simp only []
  refine ⟨_, rfl, ?_, ?_⟩
  · cases hAny : lines.any isAccessLine with
    | true =>
      simp only [h3, hAny, Bool.false_or, if_true, ite_true]
      cases hap : (!(rewriteEnvLines a r lines false false).2.2 && (r != "")) with
      | true =>
        simp only [hap, if_true, ite_true, List.filter_append]
        rw [h1]
        simp [hcredR]
      | false =>
        simp only [hap, Bool.false_eq_true, if_false]
        exact h1
    | false =>
      simp only [h3, hAny, Bool.false_or, Bool.false_eq_true, if_false, List.filter_append]
      cases hap : (!(rewriteEnvLines a r lines false false).2.2 && (r != "")) with
      | true =>
        simp only [hap, if_true, ite_true, List.filter_append]
        rw [h1]
        simp [hcredR, hcredA]
      | false =>
        simp only [hap, Bool.false_eq_true, if_false, List.filter_append]
        rw [h1]
        simp [hcredA]
  · cases hAny : lines.any isAccessLine with
    | true =>
      simp only [h3, hAny, Bool.false_or, if_true, ite_true]
      cases hap : (!(rewriteEnvLines a r lines false false).2.2 && (r != "")) with
      | true =>
        simp only [hap, if_true, ite_true, List.filter_append]
        rw [h2]
        simp [hAny, isAccessLine_refresh_canonical]
      | false =>
        simp only [hap, Bool.false_eq_true, if_false]
        rw [h2]
        simp [hAny]
    | false =>
      simp only [h3, hAny, Bool.false_or, Bool.false_eq_true, if_false]
      cases hap : (!(rewriteEnvLines a r lines false false).2.2 && (r != "")) with
      | true =>
        simp only [hap, if_true, ite_true, List.filter_append]
        rw [h2]
        simp [hAny, isAccessLine_refresh_canonical, isAccessLine_canonical]
      | false =>
        simp only [hap, Bool.false_eq_true, if_false, List.filter_append]
        rw [h2]
        simp [hAny, isAccessLine_canonical]

/-- The rotation helper issues at most one rotation round trip. -/
lemma refresh_calls_le_one (rot : String → RotOutcome) (w : World) :
    (_refresh_token rot w).2.1 ≤ 1 := by
  unfold _refresh_token
  by_cases h : w.st.refresh_token = ""
  · simp [h]
  · rw [if_neg h]
    cases rot w.st.refresh_token with
    | transportError => exact Nat.le_refl 1
    | malformed => exact Nat.le_refl 1
    | success d =>
      dsimp only
      split_ifs <;> exact Nat.le_refl 1

/-- Closed form of `_post` with the retry flag exhausted: no expiry check can
fire, so exactly one round trip happens (zero when the credential is missing)
and no rotation is attempted. -/
lemma post_false_eq (net : Nat → HttpOutcome) (rot : String → RotOutcome)
    (endpoint : String) (params : Option Params) (w : World) (n : Nat) :
    _post net rot endpoint params w n false =
      match _get_token w with
      | (w', .error e) => ⟨w', n, 0, [], .error e⟩
      | (w', .ok token) =>
        let req : Request := ⟨.post, SLACK_API_BASE ++ "/" ++ endpoint,
          [("Authorization", "Bearer " ++ token),
           ("Content-Type", "application/json; charset=utf-8")],
          some (params.getD emptyParams), none⟩
        match net n with
        | .transportError => ⟨w', n + 1, 0, [req], .error .transport⟩
        | .malformed => ⟨w', n + 1, 0, [req], .error .jsonDecode⟩
        | .success data => ⟨w', n + 1, 0, [req], .ok [⟨"text", data⟩]⟩ := by
  unfold _post
  cases hg : _get_token w with
  | mk w1 r =>
    cases r with
    | error e => rfl
    | ok token =>
      cases hnet : net n with
      | transportError => rfl
      | malformed => rfl
      | success d =>
        simp only [Bool.and_false, Bool.false_eq_true, dite_false]

/-- Closed form of `_get` with the retry flag exhausted. -/
lemma get_false_eq (net : Nat → HttpOutcome) (rot : String → RotOutcome)
    (endpoint : String) (params : Option Params) (w : World) (n : Nat) :
    _get net rot endpoint params w n false =
      match _get_token w with
      | (w', .error e) => ⟨w', n, 0, [], .error e⟩
      | (w', .ok token) =>
        let req : Request := ⟨.get, SLACK_API_BASE ++ "/" ++ endpoint,
          [("Authorization", "Bearer " ++ token)],
          none, some (params.getD emptyParams)⟩
        match net n with
        | .transportError => ⟨w', n + 1, 0, [req], .error .transport⟩
        | .malformed => ⟨w', n + 1, 0, [req], .error .jsonDecode⟩
        | .success data => ⟨w', n + 1, 0, [req], .ok [⟨"text", data⟩]⟩ := by
  unfold _get
  cases hg : _get_token w with
  | mk w1 r =>
    cases r with
    | error e => rfl
    | ok token =>
      cases hnet : net n with
      | transportError => rfl
      | malformed => rfl
      | success d =>
        simp only [Bool.and_false, Bool.false_eq_true, dite_false]

/-- Closed form of `_post` with the retry still allowed: one round trip, and
when it reports the expiry sentinel, one rotation attempt and — only on a
successful rotation — one further retry with the flag exhausted. -/
lemma post_true_eq (net : Nat → HttpOutcome) (rot : String → RotOutcome)
    (endpoint : String) (params : Option Params) (w : World) (n : Nat) :
    _post net rot endpoint params w n true =
      match _get_token w with
      | (w', .error e) => ⟨w', n, 0, [], .error e⟩
      | (w', .ok token) =>
        let req : Request := ⟨.post, SLACK_API_BASE ++ "/" ++ endpoint,
          [("Authorization", "Bearer " ++ token),
           ("Content-Type", "application/json; charset=utf-8")],
          some (params.getD emptyParams), none⟩
        match net n with
        | .transportError => ⟨w', n + 1, 0, [req], .error .transport⟩
        | .malformed => ⟨w', n + 1, 0, [req], .error .jsonDecode⟩
        | .success data =>
          if (!data.ok && (data.error == some "token_expired")) = true then
            match _refresh_token rot w' with
            | (w2, rc, .error e) => ⟨w2, n + 1, rc, [req], .error e⟩
            | (w2, rc, .ok true) =>
              let rr := _post net rot endpoint params w2 (n + 1) false
              ⟨rr.w, rr.nextIdx, rc + rr.rotCalls, req :: rr.trace, rr.result⟩
            | (w2, rc, .ok false) => ⟨w2, n + 1, rc, [req], .ok [⟨"text", data⟩]⟩
          else ⟨w', n + 1, 0, [req], .ok [⟨"text", data⟩]⟩ := by
  rw [_post]
  cases hg : _get_token w with
  | mk w1 r =>
    cases r with
    | error e => rfl
    | ok token =>
      cases hnet : net n with
      | transportError => rfl
      | malformed => rfl
      | success d =>
        simp only [Bool.and_true]
        by_cases hc : (!d.ok && (d.error == some "token_expired")) = true
        · rw [dif_pos hc, if_pos hc]
        · rw [dif_neg hc, if_neg hc]

/-- Closed form of `_get` with the retry still allowed. -/
lemma get_true_eq (net : Nat → HttpOutcome) (rot : String → RotOutcome)
    (endpoint : String) (params : Option Params) (w : World) (n : Nat) :
    _get net rot endpoint params w n true =
      match _get_token w with
      | (w', .error e) => ⟨w', n, 0, [], .error e⟩
      | (w', .ok token) =>
        let req : Request := ⟨.get, SLACK_API_BASE ++ "/" ++ endpoint,
          [("Authorization", "Bearer " ++ token)],
          none, some (params.getD emptyParams)⟩
        match net n with
        | .transportError => ⟨w', n + 1, 0, [req], .error .transport⟩
        | .malformed => ⟨w', n + 1, 0, [req], .error .jsonDecode⟩
        | .success data =>
          if (!data.ok && (data.error == some "token_expired")) = true then
            match _refresh_token rot w' with
            | (w2, rc, .error e) => ⟨w2, n + 1, rc, [req], .error e⟩
            | (w2, rc, .ok true) =>
              let rr := _get net rot endpoint params w2 (n + 1) false
              ⟨rr.w, rr.nextIdx, rc + rr.rotCalls, req :: rr.trace, rr.result⟩
            | (w2, rc, .ok false) => ⟨w2, n + 1, rc, [req], .ok [⟨"text", data⟩]⟩
          else ⟨w', n + 1, 0, [req], .ok [⟨"text", data⟩]⟩ := by
  rw [_get]
  cases hg : _get_token w with
  | mk w1 r =>
    cases r with
    | error e => rfl
    | ok token =>
      cases hnet : net n with
      | transportError => rfl
      | malformed => rfl
      | success d =>
        simp only [Bool.and_true]
        by_cases hc : (!d.ok && (d.error == some "token_expired")) = true
        · rw [dif_pos hc, if_pos hc]
        · rw [dif_neg hc, if_neg hc]

/-- Bounds for a retry-exhausted `_post`: at most one round trip and no
rotation. -/
lemma post_false_bounds (net : Nat → HttpOutcome) (rot : String → RotOutcome)
    (endpoint : String) (params : Option Params) (w : World) (n : Nat) :
    (_post net rot endpoint params w n false).nextIdx ≤ n + 1 ∧
    (_post net rot endpoint params w n false).trace.length ≤ 1 ∧
    (_post net rot endpoint params w n false).rotCalls = 0 := by
  rw [post_false_eq]
  cases hg : _get_token w with
  | mk w1 r =>
    cases r with
    | error e => exact ⟨Nat.le_add_right n 1, by simp, rfl⟩
    | ok token =>
      cases hnet : net n with
      | transportError => exact ⟨Nat.le_refl _, by simp, rfl⟩
      | malformed => exact ⟨Nat.le_refl _, by simp, rfl⟩
      | success d => exact ⟨Nat.le_refl _, by simp, rfl⟩

/-- Bounds for a retry-exhausted `_get`. -/
lemma get_false_bounds (net : Nat → HttpOutcome) (rot : String → RotOutcome)
    (endpoint : String) (params : Option Params) (w : World) (n : Nat) :
    (_get net rot endpoint params w n false).nextIdx ≤ n + 1 ∧
    (_get net rot endpoint params w n false).trace.length ≤ 1 ∧
    (_get net rot endpoint params w n false).rotCalls = 0 := by
  rw [get_false_eq]
  cases hg : _get_token w with
  | mk w1 r =>
    cases r with
    | error e => exact ⟨Nat.le_add_right n 1, by simp, rfl⟩
    | ok token =>
      cases hnet : net n with
      | transportError => exact ⟨Nat.le_refl _, by simp, rfl⟩
      | malformed => exact ⟨Nat.le_refl _, by simp, rfl⟩
      | success d => exact ⟨Nat.le_refl _, by simp, rfl⟩

/-- C1: one logical dispatcher call — POST or GET, any endpoint and params,
any scripted platform behaviour, in particular arbitrarily many consecutive
`token_expired` responses — issues at most 2 dispatch round trips and at most
1 rotation round trip; the retried attempt runs with the retry flag false and
so can never rotate or retry again. -/
theorem c1_at_most_two_round_trips (net : Nat → HttpOutcome)
    (rot : String → RotOutcome) (endpoint : String) (params : Option Params)
    (w : World) (n : Nat) :
    ((_post net rot endpoint params w n true).nextIdx ≤ n + 2 ∧
     (_post net rot endpoint params w n true).trace.length ≤ 2 ∧
     (_post net rot endpoint params w n true).rotCalls ≤ 1) ∧
    ((_get net rot endpoint params w n true).nextIdx ≤ n + 2 ∧
     (_get net rot endpoint params w n true).trace.length ≤ 2 ∧
     (_get net rot endpoint params w n true).rotCalls ≤ 1) := by
  constructor
  · rw [post_true_eq]
    cases hg : _get_token w with
    | mk w1 r =>
      cases r with
      | error e => exact ⟨Nat.le_add_right n 2, by simp, by simp⟩
      | ok token =>
        cases hnet : net n with
        | transportError => exact ⟨Nat.le_succ (n + 1), by simp, by simp⟩
        | malformed => exact ⟨Nat.le_succ (n + 1), by simp, by simp⟩
        | success d =>
          dsimp only
          by_cases hc : (!d.ok && (d.error == some "token_expired")) = true
          · rw [if_pos hc]
            rcases hrf : _refresh_token rot w1 with ⟨w2, rc, rr⟩
            have hrc : rc ≤ 1 := by
              have hb := refresh_calls_le_one rot w1
              rw [hrf] at hb
              exact hb
            cases rr with
            | error e => exact ⟨Nat.le_succ (n + 1), by simp, hrc⟩
            | ok b =>
              cases b with
              | false => exact ⟨Nat.le_succ (n + 1), by simp, hrc⟩
              | true =>
                obtain ⟨hb1, hb2, hb3⟩ :=
                  post_false_bounds net rot endpoint params w2 (n + 1)
                exact ⟨hb1, Nat.succ_le_succ hb2, by simp [hb3, hrc]⟩
          · rw [if_neg hc]
            exact ⟨Nat.le_succ (n + 1), by simp, by simp⟩
  · rw [get_true_eq]
    cases hg : _get_token w with
    | mk w1 r =>
      cases r with
      | error e => exact ⟨Nat.le_add_right n 2, by simp, by simp⟩
      | ok token =>
        cases hnet : net n with
        | transportError => exact ⟨Nat.le_succ (n + 1), by simp, by simp⟩
        | malformed => exact ⟨Nat.le_succ (n + 1), by simp, by simp⟩
        | success d =>
          dsimp only
          by_cases hc : (!d.ok && (d.error == some "token_expired")) = true
          · rw [if_pos hc]
            rcases hrf : _refresh_token rot w1 with ⟨w2, rc, rr⟩
            have hrc : rc ≤ 1 := by
              have hb := refresh_calls_le_one rot w1
              rw [hrf] at hb
              exact hb
            cases rr with
            | error e => exact ⟨Nat.le_succ (n + 1), by simp, hrc⟩
            | ok b =>
              cases b with
              | false => exact ⟨Nat.le_succ (n + 1), by simp, hrc⟩
              | true =>
                obtain ⟨hb1, hb2, hb3⟩ :=
                  get_false_bounds net rot endpoint params w2 (n + 1)
                exact ⟨hb1, Nat.succ_le_succ hb2, by simp [hb3, hrc]⟩
          · rw [if_neg hc]
            exact ⟨Nat.le_succ (n + 1), by simp, by simp⟩

/-- Reading the token when the in-memory token is non-empty returns it untouched. -/
lemma get_token_of_nonempty {w : World} (h : w.st.access_token ≠ "") :
    _get_token w = (w, Except.ok w.st.access_token) := by
  simp [_get_token, h]

/-- Rotation with an empty refresh credential: `false`, no network
call, world untouched (slack.py:136-140). -/
lemma refresh_token_empty (rot : String → RotOutcome) {w : World}
    (h : w.st.refresh_token = "") :
    _refresh_token rot w = (w, 0, Except.ok false) := by
  simp [_refresh_token, h]

/-- C6: when the first attempt reports the expiry sentinel and the stored
refresh credential is empty, `_refresh_token` returns `false` without issuing
any rotation round trip, and the logical call (POST or GET) ends normally
with the original expiry payload after exactly one dispatch round trip, the
world unchanged. -/
theorem c6_expiry_with_empty_refresh (net : Nat → HttpOutcome)
    (rot : String → RotOutcome) (endpoint : String) (params : Option Params)
    (w : World) (n : Nat) (d : RespData)
    (hacc : w.st.access_token ≠ "") (href : w.st.refresh_token = "")
    (hnet : net n = HttpOutcome.success d) (hok : d.ok = false)
    (herr : d.error = some "token_expired") :
    _refresh_token rot w = (w, 0, Except.ok false) ∧
    (_post net rot endpoint params w n true).result = Except.ok [⟨"text", d⟩] ∧
    (_post net rot endpoint params w n true).rotCalls = 0 ∧
    (_post net rot endpoint params w n true).nextIdx = n + 1 ∧
    (_post net rot endpoint params w n true).w = w ∧
    (_get net rot endpoint params w n true).result = Except.ok [⟨"text", d⟩] ∧
    (_get net rot endpoint params w n true).rotCalls = 0 := by
  have hrf := refresh_token_empty rot href
  have hcond : (!d.ok && (d.error == some "token_expired")) = true := by
    rw [hok, herr]
    decide
  refine ⟨hrf, ?_⟩
  rw [post_true_eq, get_true_eq, get_token_of_nonempty hacc, hnet]
  dsimp only
  rw [if_pos hcond, if_pos hcond, hrf]
  exact ⟨rfl, rfl, rfl, rfl, rfl, rfl⟩

/-- Witness for C6 at a concrete world, endpoint and scripted expiry
response. -/
theorem c6_expiry_with_empty_refresh_witness :
    _refresh_token (fun _ => RotOutcome.transportError)
        ⟨⟨"", "", "", ""⟩, ⟨"xoxe.xoxp-t", ""⟩, none⟩ =
      (⟨⟨"", "", "", ""⟩, ⟨"xoxe.xoxp-t", ""⟩, none⟩, 0, Except.ok false) ∧
    (_post (fun _ => HttpOutcome.success ⟨false, some "token_expired", "B"⟩)
        (fun _ => RotOutcome.transportError) "chat.postMessage" none
        ⟨⟨"", "", "", ""⟩, ⟨"xoxe.xoxp-t", ""⟩, none⟩ 0 true).result =
      Except.ok [⟨"text", ⟨false, some "token_expired", "B"⟩⟩] ∧
    (_post (fun _ => HttpOutcome.success ⟨false, some "token_expired", "B"⟩)
        (fun _ => RotOutcome.transportError) "chat.postMessage" none
        ⟨⟨"", "", "", ""⟩, ⟨"xoxe.xoxp-t", ""⟩, none⟩ 0 true).rotCalls = 0 := by
  obtain ⟨h1, h2, h3, -⟩ := c6_expiry_with_empty_refresh
    (fun _ => HttpOutcome.success ⟨false, some "token_expired", "B"⟩)
    (fun _ => RotOutcome.transportError) "chat.postMessage" none
    ⟨⟨"", "", "", ""⟩, ⟨"xoxe.xoxp-t", ""⟩, none⟩ 0
    ⟨false, some "token_expired", "B"⟩
    (by decide) rfl rfl rfl rfl
  exact ⟨h1, h2, h3⟩

/-- The two header keys used by `_post` compared with `Authorization`. -/
lemma auth_key_beq : (("Authorization" : String) == "Authorization") = true := by
  decide

/-- Key `Content-Type` is not the `Authorization` key. -/
lemma ct_key_beq : (("Content-Type" : String) == "Authorization") = false := by
  decide

/-- Flag-exhausted `_post` and `_get` agree on world, round-trip count,
rotation count and result, and issue control-equivalent requests. -/
lemma post_get_equiv_false (net : Nat → HttpOutcome) (rot : String → RotOutcome)
    (endpoint : String) (params : Option Params) (w : World) (n : Nat) :
    (_post net rot endpoint params w n false).w =
      (_get net rot endpoint params w n false).w ∧
    (_post net rot endpoint params w n false).nextIdx =
      (_get net rot endpoint params w n false).nextIdx ∧
    (_post net rot endpoint params w n false).rotCalls =
      (_get net rot endpoint params w n false).rotCalls ∧
    (_post net rot endpoint params w n false).result =
      (_get net rot endpoint params w n false).result ∧
    (_post net rot endpoint params w n false).trace.map reqCtrl =
      (_get net rot endpoint params w n false).trace.map reqCtrl ∧
    (_post net rot endpoint params w n false).trace.all
      (fun q => q.verb == Verb.post && q.query == none) = true ∧
    (_get net rot endpoint params w n false).trace.all
      (fun q => q.verb == Verb.get && q.jsonBody == none) = true := by
  rw [post_false_eq, get_false_eq]
  cases hg : _get_token w with
  | mk w1 r =>
    cases r with
    | error e => exact ⟨rfl, rfl, rfl, rfl, rfl, rfl, rfl⟩
    | ok token =>
      cases hnet : net n with
      | transportError =>
        refine ⟨rfl, rfl, rfl, rfl, ?_, ?_, ?_⟩ <;>
          simp [reqCtrl, auth_key_beq, ct_key_beq, emptyParams]
      | malformed =>
        refine ⟨rfl, rfl, rfl, rfl, ?_, ?_, ?_⟩ <;>
          simp [reqCtrl, auth_key_beq, ct_key_beq, emptyParams]
      | success d =>
        refine ⟨rfl, rfl, rfl, rfl, ?_, ?_, ?_⟩ <;>
          simp [reqCtrl, auth_key_beq, ct_key_beq, emptyParams]

/-- C10: for every endpoint, parameter mapping and scripted platform
behaviour, `_post` and `_get` are behaviourally equivalent in everything but
the verb and the parameter placement: same final world, same number of
dispatch and rotation round trips, same wrapped result, and request-for-
request the same URL, the same `Authorization` (bearer) header and the same
parameter payload — with `_post` placing the payload in the JSON body and
`_get` in the query string. -/
theorem c10_post_get_equivalent (net : Nat → HttpOutcome)
    (rot : String → RotOutcome) (endpoint : String) (params : Option Params)
    (w : World) (n : Nat) (retry_on_auth_fail : Bool) :
    (_post net rot endpoint params w n retry_on_auth_fail).w =
      (_get net rot endpoint params w n retry_on_auth_fail).w ∧
    (_post net rot endpoint params w n retry_on_auth_fail).nextIdx =
      (_get net rot endpoint params w n retry_on_auth_fail).nextIdx ∧
    (_post net rot endpoint params w n retry_on_auth_fail).rotCalls =
      (_get net rot endpoint params w n retry_on_auth_fail).rotCalls ∧
    (_post net rot endpoint params w n retry_on_auth_fail).result =
      (_get net rot endpoint params w n retry_on_auth_fail).result ∧
    (_post net rot endpoint params w n retry_on_auth_fail).trace.map reqCtrl =
      (_get net rot endpoint params w n retry_on_auth_fail).trace.map reqCtrl ∧
    (_post net rot endpoint params w n retry_on_auth_fail).trace.all
      (fun q => q.verb == Verb.post && q.query == none) = true ∧
    (_get net rot endpoint params w n retry_on_auth_fail).trace.all
      (fun q => q.verb == Verb.get && q.jsonBody == none) = true := by
  cases retry_on_auth_fail with
  | false => exact post_get_equiv_false net rot endpoint params w n
  | true =>
    rw [post_true_eq, get_true_eq]
    cases hg : _get_token w with
    | mk w1 r =>
      cases r with
      | error e => exact ⟨rfl, rfl, rfl, rfl, rfl, rfl, rfl⟩
      | ok token =>
        cases hnet : net n with
        | transportError =>
          refine ⟨rfl, rfl, rfl, rfl, ?_, ?_, ?_⟩ <;>
            simp [reqCtrl, auth_key_beq, ct_key_beq, emptyParams]
        | malformed =>
          refine ⟨rfl, rfl, rfl, rfl, ?_, ?_, ?_⟩ <;>
            simp [reqCtrl, auth_key_beq, ct_key_beq, emptyParams]
        | success d =>
          dsimp only
          by_cases hc : (!d.ok && (d.error == some "token_expired")) = true
          · rw [if_pos hc, if_pos hc]
            rcases hrf : _refresh_token rot w1 with ⟨w2, rc, rr⟩
            cases rr with
            | error e =>
              refine ⟨rfl, rfl, rfl, rfl, ?_, ?_, ?_⟩ <;>
                simp [reqCtrl, auth_key_beq, ct_key_beq, emptyParams]
            | ok b =>
              cases b with
              | false =>
                refine ⟨rfl, rfl, rfl, rfl, ?_, ?_, ?_⟩ <;>
                  simp [reqCtrl, auth_key_beq, ct_key_beq, emptyParams]
              | true =>
                obtain ⟨e1, e2, e3, e4, e5, e6, e7⟩ :=
                  post_get_equiv_false net rot endpoint params w2 (n + 1)
                refine ⟨e1, e2, ?_, e4, ?_, ?_, ?_⟩
                · dsimp only
                  rw [e3]
                · dsimp only [List.map_cons]
                  rw [e5]
                  simp [reqCtrl, auth_key_beq, ct_key_beq, emptyParams]
                · dsimp only [List.all_cons]
                  rw [e6]
                  simp
                · dsimp only [List.all_cons]
                  rw [e7]
                  simp
          · rw [if_neg hc, if_neg hc]
            refine ⟨rfl, rfl, rfl, rfl, ?_, ?_, ?_⟩ <;>
              simp [reqCtrl, auth_key_beq, ct_key_beq, emptyParams]

end SlackMCP
